import Mathlib

/-!
Verification of the data-preparation/aggregation pipeline of
`src/dashboard_app.py` (monthly sales dashboard).

The pipeline is shallowly embedded:

* bytes / CSV text are `List Char`;
* a pandas datetime cell (`월` column, format `%Y-%m`) is a `Period`
  (year, month); `NaT` is `none`;
* float cells (`매출액`, `전년동월`, `증감률`) are `Option ℚ` with `none`
  playing NaN — the program's float arithmetic (sum, mean, division) is
  exact in `ℚ`, and pandas' skipna conventions are modelled explicitly;
* a raised Python exception is an explicit `Except.error`.

Each definition's doc comment names the line(s) of `dashboard_app.py` it
translates.
-/

set_option maxRecDepth 8000

/-- One `%Y-%m` value of the `월` column after
`pd.to_datetime(df["월"], format="%Y-%m")` (dashboard_app.py line 53):
a calendar month (year and month, day implicitly the 1st). -/
structure Period where
  year : Nat
  month : Nat
deriving DecidableEq, Repr

/-- Chronological order on `Period` (lexicographic on year, month), the
order used by `sort_values("월")`. -/
def Period.le (a b : Period) : Prop :=
  a.year < b.year ∨ (a.year = b.year ∧ a.month ≤ b.month)

instance (a b : Period) : Decidable (Period.le a b) :=
  inferInstanceAs (Decidable (a.year < b.year ∨ (a.year = b.year ∧ a.month ≤ b.month)))

theorem Period.le_refl (p : Period) : Period.le p p := Or.inr ⟨rfl, Nat.le_refl _⟩

/-- One row of the loaded table (dashboard_app.py lines 47-57).  Field
names translate the Korean column names of the source: `revenue` = 매출액,
`prior` = 전년동월 (prior-year same-month revenue), `growth` = 증감률
(year-over-year percent change).  A numeric field is `none` when
`pd.to_numeric(..., errors="coerce")` produced NaN. -/
structure Row where
  period : Period
  revenue : Option ℚ
  prior : Option ℚ
  growth : Option ℚ
deriving DecidableEq, Repr

/-- A row of the derived table (dashboard_app.py lines 66-67): the loaded
row plus the two derived columns `월_label` (the `%Y-%m` string label) and
`매출액_이동평균` (`movingAverage`, the rolling mean of revenue). -/
structure DRow where
  period : Period
  revenue : Option ℚ
  prior : Option ℚ
  growth : Option ℚ
  label : List Char
  movingAverage : Option ℚ
deriving DecidableEq, Repr

/-- The summary scalars of dashboard_app.py lines 73-77.
`total_revenue` is `int(df["매출액"].sum())`; `mean_growth` is
`float(df["증감률"].mean())` with `none` for NaN; `cumulative_yoy` is
`yoy_total` with `none` for `np.nan`; the extremum periods are the periods
of `df.loc[df["매출액"].idxmax()]` / `.idxmin()` (`none` models the
`ValueError` pandas raises when every revenue is NaN — no claim touches
that case). -/
structure SummaryStats where
  total_revenue : ℤ
  mean_growth : Option ℚ
  cumulative_yoy : Option ℚ
  max_revenue_period : Option Period
  min_revenue_period : Option Period
deriving DecidableEq, Repr

/-- The exceptions `load_df` (dashboard_app.py lines 47-57) can raise:
`pandas.errors.EmptyDataError` from `pd.read_csv` of empty input,
`KeyError` from `df[col]` on a missing required column, and `ValueError`
from `pd.to_datetime(..., format="%Y-%m")` (whose `errors` parameter is
left at its default `"raise"`) on an unparseable non-empty period cell. -/
inductive LoadError where
  | emptyData : LoadError
  | missingColumn : LoadError
  | periodParse : LoadError
deriving DecidableEq, Repr

/-- Split a character list at every occurrence of `c` (the separator is
dropped); always returns at least one (possibly empty) piece.  Used for
the line and field structure of the CSV text.  The CSV fragment exercised
by this file (and by the embedded sample) has no quoting or escaping, so
plain splitting matches `pd.read_csv`. -/
def splitOnChar (c : Char) : List Char → List (List Char)
  | [] => [[]]
  | x :: xs =>
    match splitOnChar c xs with
    | [] => if x = c then [[], []] else [[x]]
    | h :: t => if x = c then [] :: h :: t else (x :: h) :: t

/-- Value of a digit string, most significant first (helper for the
`strptime`-style parsing of `%Y` / `%m` fields). -/
def natOfDigits (l : List Char) : Nat :=
  l.foldl (fun a c => a * 10 + (c.toNat - 48)) 0

/-- `pd.to_datetime(cell, format="%Y-%m")` on one cell
(dashboard_app.py line 53).  A missing cell (empty field, i.e. NaN from
`read_csv`) passes through as NaT (`Except.ok none`).  A non-empty cell
must match the format exactly (`exact=True` default): `%Y` consumes up to
four leading digits, then a literal `-`, then `%m` consumes up to two
digits which must form a month in 1..12, with no trailing characters.
Any mismatch is the `ValueError` that `errors="raise"` (the source's
default) propagates: `Except.error`. -/
def parsePeriodCell (cell : List Char) : Except Unit (Option Period) :=
  if cell = [] then .ok none
  else
    let ys := (cell.takeWhile Char.isDigit).take 4
    if ys = [] then .error ()
    else
      match cell.drop ys.length with
      | '-' :: r2 =>
        let ms := (r2.takeWhile Char.isDigit).take 2
        if ms = [] then .error ()
        else
          if r2.drop ms.length = [] ∧ 1 ≤ natOfDigits ms ∧ natOfDigits ms ≤ 12 then
            .ok (some ⟨natOfDigits ys, natOfDigits ms⟩)
          else .error ()
      | _ => .error ()

/-- `pd.to_numeric(cell, errors="coerce")` on one cell
(dashboard_app.py lines 54-55).  An empty field (NaN from `read_csv`)
stays missing; a decimal literal `[+-]?digits[.digits]?` parses exactly
into `ℚ`; anything else coerces to NaN (`none`).  Exponent notation and
special float tokens are outside the fragment exercised here. -/
def parseNumericCell (cell : List Char) : Option ℚ :=
  if cell = [] then none
  else
    let sb : ℚ × List Char :=
      match cell with
      | '-' :: r => (-1, r)
      | '+' :: r => (1, r)
      | _ => (1, cell)
    let ds := sb.2.takeWhile Char.isDigit
    match sb.2.drop ds.length with
    | [] => if ds = [] then none else some (sb.1 * (natOfDigits ds : ℚ))
    | '.' :: r2 =>
      let fs := r2.takeWhile Char.isDigit
      if r2.drop fs.length = [] ∧ (ds ≠ [] ∨ fs ≠ []) then
        some (sb.1 * ((natOfDigits ds : ℚ) + (natOfDigits fs : ℚ) / (10 : ℚ) ^ fs.length))
      else none
    | _ => none

/-- Decimal digits of `n`, most significant first (fuel-based so that it
reduces in the kernel). -/
def natDigitsAux : Nat → Nat → List Char
  | 0, _ => []
  | fuel + 1, n =>
    if n < 10 then [Char.ofNat (48 + n)]
    else natDigitsAux fuel (n / 10) ++ [Char.ofNat (48 + n % 10)]

/-- Decimal digits of `n`, most significant first. -/
def natDigits (n : Nat) : List Char := natDigitsAux (n + 1) n

/-- `n` rendered zero-padded to at least `k` digits (`%04d` / `%02d`). -/
def padNat (k n : Nat) : List Char :=
  List.replicate (k - (natDigits n).length) '0' ++ natDigits n

/-- `df["월"].dt.strftime("%Y-%m")` on one period
(dashboard_app.py line 66): the `월_label` column. -/
def formatLabel (p : Period) : List Char :=
  padNat 4 p.year ++ '-' :: padNat 2 p.month

/-- How `df.to_csv` renders one value of the datetime64 column `월`
(dashboard_app.py line 159): the full date of the first of the month,
`YYYY-MM-DD` (the day component `01` comes from parsing `%Y-%m`). -/
def renderDate (p : Period) : List Char :=
  padNat 4 p.year ++ '-' :: padNat 2 p.month ++ ['-', '0', '1']

/-- Fractional decimal digits of `num/den` by long division (at most
`fuel` digits; 20 covers every float the program prints).  Helper for the
CSV rendering of a float cell. -/
def renderFracAux : Nat → Nat → Nat → List Char
  | 0, _, _ => []
  | fuel + 1, num, den =>
    if num = 0 then []
    else Char.ofNat (48 + num * 10 / den) :: renderFracAux fuel (num * 10 % den) den

/-- A float cell as `df.to_csv` renders it: decimal expansion with at
least one fractional digit (`12000000.0`), `-` sign in front.  For a
non-terminating expansion this keeps 20 digits where the float repr keeps
about 17; no theorem in this file reads those characters back (the
round-trip theorems fail earlier, on the period column). -/
def renderRat (q : ℚ) : List Char :=
  let n := q.num.natAbs
  let frac := renderFracAux 20 (n % q.den) q.den
  (if q < 0 then ['-'] else []) ++
    natDigits (n / q.den) ++ '.' :: (if frac = [] then ['0'] else frac)

/-- An `Option ℚ` cell as `df.to_csv` renders it: NaN becomes the empty
field (default `na_rep=''`). -/
def renderNum : Option ℚ → List Char
  | none => []
  | some q => renderRat q

/-- The embedded sample dataset `SAMPLE_CSV`
(dashboard_app.py lines 18-31), verbatim. -/
def SAMPLE_CSV : String :=
  "월,매출액,전년동월,증감률\n2024-01,12000000,10500000,14.3\n2024-02,13500000,11200000,20.5\n2024-03,11000000,12800000,-14.1\n2024-04,18000000,15200000,18.4\n2024-05,21000000,18500000,13.5\n2024-06,19500000,17000000,14.7\n2024-07,17500000,16000000,9.4\n2024-08,16000000,15000000,6.7\n2024-09,15500000,14500000,6.9\n2024-10,22000000,20000000,10.0\n2024-11,23000000,21000000,9.5\n2024-12,24000000,21500000,11.6\n"

/-- Position of column `name` in the header, as `df[name]` resolves it;
`none` is the `KeyError` case. -/
def colIdx? (name : List Char) : List (List Char) → Option Nat
  | [] => none
  | h :: t => if h = name then some 0 else (colIdx? name t).map (· + 1)

/-- Field `i` of a data row; a row shorter than the header yields the
empty field, which `read_csv` reads as NaN. -/
def getCell (fields : List (List Char)) (i : Nat) : List Char :=
  (fields.get? i).getD []

/-- `pd.to_datetime(df["월"], format="%Y-%m")` over the whole column
(dashboard_app.py line 53): the first unparseable non-empty cell raises,
aborting the conversion; otherwise every cell yields a `Period` or NaT. -/
def parsePeriodColumn (pi : Nat) : List (List (List Char)) → Except Unit (List (Option Period))
  | [] => .ok []
  | f :: rest =>
    match parsePeriodCell (getCell f pi), parsePeriodColumn pi rest with
    | .error _, _ => .error ()
    | _, .error _ => .error ()
    | .ok p, .ok ps => .ok (p :: ps)

/-- Chronological sort of the retained rows: `sort_values("월")`
(dashboard_app.py line 56).  Modelled as an insertion sort by period.
`sort_values`' default algorithm is quicksort; every comparison sort
produces the same list on keys that are pairwise distinct, which holds
for every input a theorem below evaluates this on (the stability question
for duplicate periods is treated separately and is not settled here). -/
def sortRows (rows : List Row) : List Row :=
  List.insertionSort (fun a b => Period.le a.period b.period) rows

/-- `load_df(file_bytes, use_sample_flag)` (dashboard_app.py lines 47-57):

1. choose the sample text when the flag is set or the bytes are absent or
   empty (`if use_sample_flag or not file_bytes`), line 48;
2. `pd.read_csv`: split into non-blank lines (pandas skips blank lines),
   first line is the header, fields split on commas; empty input raises
   `EmptyDataError`;
3. `df["월"] = pd.to_datetime(df["월"], format="%Y-%m")` — `KeyError` if
   the column is absent, `ValueError` (default `errors="raise"`) on an
   unparseable non-empty cell, line 53;
4. coerce the three numeric columns (`KeyError` if absent,
   `errors="coerce"` otherwise never raises), lines 54-55;
5. `dropna(subset=["월"]).sort_values("월").reset_index(drop=True)`,
   line 56: drop NaT periods, sort chronologically.

The UTF-8 BOM of the exported artifact is outside this model: pandas'
parser strips it before the header is read. -/
def loadDf (fileBytes : Option (List Char)) (useSampleFlag : Bool) : Except LoadError (List Row) :=
  let text :=
    if useSampleFlag then SAMPLE_CSV.data
    else
      match fileBytes with
      | none => SAMPLE_CSV.data
      | some bs => if bs = [] then SAMPLE_CSV.data else bs
  match (splitOnChar '\n' text).filter (fun l => l ≠ []) with
  | [] => .error .emptyData
  | hdr :: body =>
    let header := splitOnChar ',' hdr
    let fields := body.map (splitOnChar ',')
    match colIdx? "월".data header with
    | none => .error .missingColumn
    | some pi =>
      match parsePeriodColumn pi fields with
      | .error _ => .error .periodParse
      | .ok periods =>
        match colIdx? "매출액".data header, colIdx? "전년동월".data header,
            colIdx? "증감률".data header with
        | some ri, some yi, some gi =>
          let raw := periods.zip fields
          let rows := raw.filterMap fun pf =>
            pf.1.map fun p =>
              { period := p
                revenue := parseNumericCell (getCell pf.2 ri)
                prior := parseNumericCell (getCell pf.2 yi)
                growth := parseNumericCell (getCell pf.2 gi) : Row }
          .ok (sortRows rows)
        | _, _, _ => .error .missingColumn

/-- The Table loaded from the embedded sample
(`load_df(None, True)`, dashboard_app.py line 59 with the defaults). -/
def sampleTable : List Row := ((loadDf none true).toOption).getD []

/-- Sum of a float column under pandas' default `skipna=True`
(`df[col].sum()`, dashboard_app.py lines 73-75): NaN entries are skipped
and the empty / all-NaN sum is 0. -/
def nanSum (l : List (Option ℚ)) : ℚ := (l.filterMap id).sum

/-- Mean of a float column under pandas' default `skipna=True`
(`df["증감률"].mean()`, dashboard_app.py line 74): the mean of the non-NaN
entries, NaN (`none`) when there are none. -/
def nanMean (l : List (Option ℚ)) : Option ℚ :=
  let v := l.filterMap id
  if v = [] then none else some (v.sum / (v.length : ℚ))

/-- Python `int(...)` applied to a float: truncation toward zero
(dashboard_app.py line 73). -/
def intTrunc (q : ℚ) : ℤ := Int.tdiv q.num q.den

/-- `df["매출액"].idxmax()` (dashboard_app.py line 76): the index of the
first occurrence of the maximum over the non-NaN entries, together with
that maximum; `none` when every entry is NaN (pandas raises there). -/
def argmaxQ : List (Option ℚ) → Option (Nat × ℚ)
  | [] => none
  | none :: rest => (argmaxQ rest).map (fun p => (p.1 + 1, p.2))
  | some q :: rest =>
    match argmaxQ rest with
    | none => some (0, q)
    | some (i, m) => if q < m then some (i + 1, m) else some (0, q)

/-- `df["매출액"].idxmin()` (dashboard_app.py line 77): the index of the
first occurrence of the minimum over the non-NaN entries, together with
that minimum; `none` when every entry is NaN. -/
def argminQ : List (Option ℚ) → Option (Nat × ℚ)
  | [] => none
  | none :: rest => (argminQ rest).map (fun p => (p.1 + 1, p.2))
  | some q :: rest =>
    match argminQ rest with
    | none => some (0, q)
    | some (i, m) => if m < q then some (i + 1, m) else some (0, q)

/-- The KPI block of dashboard_app.py lines 73-77:

* `total_sales = int(df["매출액"].sum())`;
* `avg_growth  = float(df["증감률"].mean())` (NaN kept as `none`);
* `yoy_total   = float((df["매출액"].sum() - df["전년동월"].sum())
                  / df["전년동월"].sum() * 100)
                  if df["전년동월"].sum() else np.nan`
  — the Python truthiness test makes the value NaN exactly when the
  (skipna) sum of `전년동월` is `0.0`;
* `max_row` / `min_row` via `idxmax` / `idxmin` and `df.loc` on the
  positional index (rows were `reset_index(drop=True)`). -/
def summarize (t : List Row) : SummaryStats :=
  let revs := t.map Row.revenue
  let pris := t.map Row.prior
  let gros := t.map Row.growth
  { total_revenue := intTrunc (nanSum revs)
    mean_growth := nanMean gros
    cumulative_yoy :=
      if nanSum pris = 0 then none
      else some ((nanSum revs - nanSum pris) / nanSum pris * 100)
    max_revenue_period := (argmaxQ revs).bind fun p => (t.get? p.1).map Row.period
    min_revenue_period := (argminQ revs).bind fun p => (t.get? p.1).map Row.period }

/-- One entry of `df["매출액"].rolling(window=w, min_periods=w).mean()`
(dashboard_app.py line 67): the window at row `i` holds the last
`min(i+1, w)` values; the mean of its non-NaN entries is produced only
when their count reaches `min_periods = w`, otherwise NaN. -/
def rollAt (w : Nat) (l : List (Option ℚ)) (i : Nat) : Option ℚ :=
  if w ≤ (((l.take (i + 1)).drop (i + 1 - w)).filterMap id).length then
    some ((((l.take (i + 1)).drop (i + 1 - w)).filterMap id).sum /
      (((((l.take (i + 1)).drop (i + 1 - w)).filterMap id).length : Nat) : ℚ))
  else none

/-- The whole rolling-mean column of dashboard_app.py line 67. -/
def movingAvg (w : Nat) (l : List (Option ℚ)) : List (Option ℚ) :=
  (List.range l.length).map (rollAt w l)

/-- One derived row: the loaded row with its `월_label` and its rolling
mean (dashboard_app.py lines 66-67 assign the two new columns; existing
columns are untouched). -/
def mkDRow (r : Row) (m : Option ℚ) : DRow :=
  { period := r.period, revenue := r.revenue, prior := r.prior,
    growth := r.growth, label := formatLabel r.period, movingAverage := m }

/-- `augment(table, window)`: the derived-column block of
dashboard_app.py lines 66-67 as a pure function Table → DerivedTable. -/
def augment (t : List Row) (w : Nat) : List DRow :=
  List.zipWith mkDRow t (movingAvg w (t.map Row.revenue))

/-- The spec's formula for the moving average (spec §4.2 and claim C2),
stated independently of the code: the arithmetic mean of `revenue` over
rows `[i-w+1, i]` when all `w` rows exist in the table and all their
revenues are present, missing otherwise.  Written from the spec's words
as the comparator the rolling-mean implementation is checked against. -/
def specMovingAverage (t : List Row) (w i : Nat) : Option ℚ :=
  let win := ((t.map Row.revenue).take (i + 1)).drop (i + 1 - w)
  if w ≤ i + 1 ∧ win.all Option.isSome = true then
    some ((win.filterMap id).sum / (w : ℚ))
  else none

/-- `df.to_csv(index=False)` on the derived table
(dashboard_app.py line 159): header line with the six columns in frame
order, then one line per row — the datetime column as a full
`YYYY-MM-DD` date, float columns in decimal notation, NaN as the empty
field — each line terminated by a newline. -/
def exportCsv (d : List DRow) : List Char :=
  "월,매출액,전년동월,증감률,월_label,매출액_이동평균\n".data ++
    d.foldr
      (fun r acc =>
        renderDate r.period ++ ',' :: renderNum r.revenue ++ ',' :: renderNum r.prior
          ++ ',' :: renderNum r.growth ++ ',' :: r.label
          ++ ',' :: renderNum r.movingAverage ++ '\n' :: acc)
      []

/-! ### Concrete inputs used by counterexamples and code-bug evaluations -/

/-- Upload whose second data row has the unparseable period `2024-13`
(month 13 fails `%Y-%m`). -/
def badPeriodCsv : List Char :=
  "월,매출액,전년동월,증감률\n2024-01,1,2,3\n2024-13,4,5,6\n".data

/-- Upload whose header lacks the three numeric columns. -/
def badColumnsCsv : List Char :=
  "월,가,나,다\n2024-01,1,2,3\n".data

/-- Upload whose first data row has the non-date period `abc` and whose
second row is well-formed. -/
def badPeriodCsv2 : List Char :=
  "월,매출액,전년동월,증감률\nabc,1,2,3\n2024-02,4,5,6\n".data

/-- Upload whose revenue cell `xx` is not numeric. -/
def badNumericCsv : List Char :=
  "월,매출액,전년동월,증감률\n2024-01,xx,2,3\n".data

/-- Two-row table whose second row has missing revenue and growth. -/
def missTable : List Row :=
  [{ period := ⟨2024, 1⟩, revenue := some 10, prior := some 5, growth := some 1 },
   { period := ⟨2024, 2⟩, revenue := none, prior := some 5, growth := none }]


/-- The 12 sample rows in explicit literal form; `sampleTable_eq` below
proves that the loader produces exactly this list from `SAMPLE_CSV`. -/
def sampleRows : List Row :=
  [{ period := ⟨2024, 1⟩, revenue := some 12000000, prior := some 10500000, growth := some (143 / 10) },
   { period := ⟨2024, 2⟩, revenue := some 13500000, prior := some 11200000, growth := some (205 / 10) },
   { period := ⟨2024, 3⟩, revenue := some 11000000, prior := some 12800000, growth := some (-141 / 10) },
   { period := ⟨2024, 4⟩, revenue := some 18000000, prior := some 15200000, growth := some (184 / 10) },
   { period := ⟨2024, 5⟩, revenue := some 21000000, prior := some 18500000, growth := some (135 / 10) },
   { period := ⟨2024, 6⟩, revenue := some 19500000, prior := some 17000000, growth := some (147 / 10) },
   { period := ⟨2024, 7⟩, revenue := some 17500000, prior := some 16000000, growth := some (94 / 10) },
   { period := ⟨2024, 8⟩, revenue := some 16000000, prior := some 15000000, growth := some (67 / 10) },
   { period := ⟨2024, 9⟩, revenue := some 15500000, prior := some 14500000, growth := some (69 / 10) },
   { period := ⟨2024, 10⟩, revenue := some 22000000, prior := some 20000000, growth := some 10 },
   { period := ⟨2024, 11⟩, revenue := some 23000000, prior := some 21000000, growth := some (95 / 10) },
   { period := ⟨2024, 12⟩, revenue := some 24000000, prior := some 21500000, growth := some (116 / 10) }]

/-- Small sorted table with a revenue maximum achieved by the first two
rows and a minimum achieved by the last two; used to instantiate the
general theorems. -/
def wTable : List Row :=
  [{ period := ⟨2024, 1⟩, revenue := some 5, prior := some 4, growth := some 1 },
   { period := ⟨2024, 2⟩, revenue := some 5, prior := some 2, growth := some 2 },
   { period := ⟨2024, 3⟩, revenue := some 1, prior := some 2, growth := some 3 },
   { period := ⟨2024, 4⟩, revenue := some 1, prior := some 2, growth := none }]

/-- Row `r` of the table achieves the maximum revenue: its revenue is
present and no row's present revenue exceeds it (claim C8's notion of "a
row achieving the maximum"). -/
def achievesMax (t : List Row) (r : Row) : Prop :=
  ∃ q, r.revenue = some q ∧ ∀ r' ∈ t, ∀ q', r'.revenue = some q' → q' ≤ q

/-- Row `r` of the table achieves the minimum revenue. -/
def achievesMin (t : List Row) (r : Row) : Prop :=
  ∃ q, r.revenue = some q ∧ ∀ r' ∈ t, ∀ q', r'.revenue = some q' → q ≤ q'

/-! ### Helper lemmas -/

theorem sampleTable_eq : sampleTable = sampleRows := by with_unfolding_all rfl

theorem reload_export_sample :
    loadDf (some (exportCsv (augment sampleRows 3))) false = .error .periodParse := by
  with_unfolding_all rfl

theorem map_filterMap_id (f : Row → Option ℚ) (t : List Row) :
    (t.map f).filterMap id = t.filterMap f := by
  rw [List.filterMap_map]; rfl

theorem movingAvg_length (w : Nat) (l : List (Option ℚ)) :
    (movingAvg w l).length = l.length := by
  simp [movingAvg]

theorem zipWith_mkDRow_proj :
    ∀ (t : List Row) (ms : List (Option ℚ)), t.length ≤ ms.length →
      (List.zipWith mkDRow t ms).map (fun d => (d.period, d.revenue, d.prior, d.growth)) =
        t.map (fun r => (r.period, r.revenue, r.prior, r.growth))
  | [], _, _ => rfl
  | _ :: _, _ :: _, h => by
    simp only [List.zipWith, List.map, mkDRow, List.cons.injEq, true_and]
    exact zipWith_mkDRow_proj _ _ (Nat.le_of_succ_le_succ h)

theorem zipWith_mkDRow_ma :
    ∀ (t : List Row) (ms : List (Option ℚ)), ms.length = t.length →
      (List.zipWith mkDRow t ms).map DRow.movingAverage = ms
  | [], [], _ => rfl
  | [], _ :: _, h => by simp at h
  | _ :: _, [], h => by simp at h
  | _ :: _, _ :: _, h => by
    simp only [List.zipWith, List.map, mkDRow, List.cons.injEq, true_and]
    exact zipWith_mkDRow_ma _ _ (by simpa using h)

theorem filterMap_id_length_of_all :
    ∀ l : List (Option ℚ), l.all Option.isSome = true → (l.filterMap id).length = l.length
  | [], _ => rfl
  | x :: l, h => by
    rw [List.all_cons, Bool.and_eq_true] at h
    obtain ⟨hx, hl⟩ := h
    cases x with
    | none => simp at hx
    | some a =>
      simp only [List.filterMap_cons, id, List.length_cons]
      exact congrArg (· + 1) (filterMap_id_length_of_all l hl)

theorem filterMap_id_length_lt :
    ∀ l : List (Option ℚ), l.all Option.isSome = false → (l.filterMap id).length < l.length
  | x :: l, h => by
    cases x with
    | none =>
      simp only [List.filterMap_cons, id, List.length_cons]
      exact Nat.lt_succ_of_le (List.length_filterMap_le _ _)
    | some a =>
      have hl : l.all Option.isSome = false := by simpa using h
      simp only [List.filterMap_cons, id, List.length_cons]
      exact Nat.succ_lt_succ (filterMap_id_length_lt l hl)

theorem rollAt_eq_spec (l : List (Option ℚ)) (w i : Nat) (hi : i < l.length) :
    rollAt w l i =
      (if w ≤ i + 1 ∧ ((l.take (i + 1)).drop (i + 1 - w)).all Option.isSome = true then
        some (((((l.take (i + 1)).drop (i + 1 - w)).filterMap id).sum) / (w : ℚ))
      else none) := by
  have hwin : ((l.take (i + 1)).drop (i + 1 - w)).length = (i + 1) - (i + 1 - w) := by
    rw [List.length_drop, List.length_take]
    omega
  by_cases hw : w ≤ i + 1
  · by_cases hall : ((l.take (i + 1)).drop (i + 1 - w)).all Option.isSome = true
    · have hobs : ((((l.take (i + 1)).drop (i + 1 - w))).filterMap id).length = w :=
        (filterMap_id_length_of_all _ hall).trans (by omega)
      rw [rollAt, if_pos (le_of_eq hobs.symm), if_pos ⟨hw, hall⟩, hobs]
    · have hfalse : ((l.take (i + 1)).drop (i + 1 - w)).all Option.isSome = false := by
        revert hall; cases ((l.take (i + 1)).drop (i + 1 - w)).all Option.isSome <;> simp
      have hlt : ((((l.take (i + 1)).drop (i + 1 - w))).filterMap id).length < w := by
        have := filterMap_id_length_lt _ hfalse
        omega
      rw [rollAt, if_neg (Nat.not_le.mpr hlt), if_neg (by intro hc; exact hall hc.2)]
  · have hlt : ((((l.take (i + 1)).drop (i + 1 - w))).filterMap id).length < w := by
      have := List.length_filterMap_le id ((l.take (i + 1)).drop (i + 1 - w))
      omega
    rw [rollAt, if_neg (Nat.not_le.mpr hlt), if_neg (by intro hc; exact hw hc.1)]


theorem argmaxQ_cons_some (q0 : ℚ) (rest : List (Option ℚ)) :
    (argmaxQ (some q0 :: rest)).isSome = true := by
  rw [argmaxQ]
  cases argmaxQ rest with
  | none => rfl
  | some p =>
    obtain ⟨i, m⟩ := p
    dsimp only
    split <;> rfl

theorem argminQ_cons_some (q0 : ℚ) (rest : List (Option ℚ)) :
    (argminQ (some q0 :: rest)).isSome = true := by
  rw [argminQ]
  cases argminQ rest with
  | none => rfl
  | some p =>
    obtain ⟨i, m⟩ := p
    dsimp only
    split <;> rfl

theorem argmaxQ_none (l : List (Option ℚ)) (h : argmaxQ l = none) :
    ∀ j q, l.get? j ≠ some (some q) := by
  induction l with
  | nil => intro j q; simp
  | cons x rest ih =>
    intro j q hj
    cases x with
    | none =>
      rw [argmaxQ, Option.map_eq_none'] at h
      cases j with
      | zero => simp at hj
      | succ j' => exact ih h j' q (by simpa using hj)
    | some q0 =>
      have := argmaxQ_cons_some q0 rest
      rw [h] at this
      simp at this

theorem argminQ_none (l : List (Option ℚ)) (h : argminQ l = none) :
    ∀ j q, l.get? j ≠ some (some q) := by
  induction l with
  | nil => intro j q; simp
  | cons x rest ih =>
    intro j q hj
    cases x with
    | none =>
      rw [argminQ, Option.map_eq_none'] at h
      cases j with
      | zero => simp at hj
      | succ j' => exact ih h j' q (by simpa using hj)
    | some q0 =>
      have := argminQ_cons_some q0 rest
      rw [h] at this
      simp at this

theorem argmaxQ_spec :
    ∀ (l : List (Option ℚ)) (i : Nat) (q : ℚ), argmaxQ l = some (i, q) →
      l.get? i = some (some q) ∧
        (∀ j q', l.get? j = some (some q') → q' ≤ q) ∧
        (∀ j, j < i → ∀ q', l.get? j = some (some q') → q' < q) := by
  intro l
  induction l with
  | nil => intro i q h; simp [argmaxQ] at h
  | cons x rest ih =>
    intro i q h
    cases x with
    | none =>
      rw [argmaxQ] at h
      cases hrest : argmaxQ rest with
      | none => rw [hrest] at h; simp at h
      | some p =>
        obtain ⟨i', m⟩ := p
        rw [hrest] at h
        simp only [Option.map_some', Option.some.injEq, Prod.mk.injEq] at h
        obtain ⟨hi, hq⟩ := h
        subst hi; subst hq
        obtain ⟨s1, s2, s3⟩ := ih i' m hrest
        refine ⟨by simpa using s1, ?_, ?_⟩
        · intro j q' hj
          cases j with
          | zero => simp at hj
          | succ j' => exact s2 j' q' (by simpa using hj)
        · intro j hji q' hj
          cases j with
          | zero => simp at hj
          | succ j' => exact s3 j' (Nat.lt_of_succ_lt_succ hji) q' (by simpa using hj)
    | some q0 =>
      rw [argmaxQ] at h
      cases hrest : argmaxQ rest with
      | none =>
        rw [hrest] at h
        simp only [Option.some.injEq, Prod.mk.injEq] at h
        obtain ⟨hi, hq⟩ := h
        subst hi; subst hq
        refine ⟨by simp, ?_, ?_⟩
        · intro j q' hj
          cases j with
          | zero =>
            have hq' : q0 = q' := by simpa using hj
            exact le_of_eq hq'.symm
          | succ j' => exact absurd (by simpa using hj) (argmaxQ_none rest hrest j' q')
        · intro j hji
          exact absurd hji (Nat.not_lt_zero j)
      | some p =>
        obtain ⟨i', m⟩ := p
        rw [hrest] at h
        dsimp only at h
        obtain ⟨s1, s2, s3⟩ := ih i' m hrest
        by_cases hlt : q0 < m
        · rw [if_pos hlt] at h
          simp only [Option.some.injEq, Prod.mk.injEq] at h
          obtain ⟨hi, hq⟩ := h
          subst hi; subst hq
          refine ⟨by simpa using s1, ?_, ?_⟩
          · intro j q' hj
            cases j with
            | zero =>
              have hq' : q0 = q' := by simpa using hj
              exact hq' ▸ le_of_lt hlt
            | succ j' => exact s2 j' q' (by simpa using hj)
          · intro j hji q' hj
            cases j with
            | zero =>
              have hq' : q0 = q' := by simpa using hj
              exact hq' ▸ hlt
            | succ j' => exact s3 j' (Nat.lt_of_succ_lt_succ hji) q' (by simpa using hj)
        · rw [if_neg hlt] at h
          simp only [Option.some.injEq, Prod.mk.injEq] at h
          obtain ⟨hi, hq⟩ := h
          subst hi; subst hq
          have hm : m ≤ q0 := not_lt.mp hlt
          refine ⟨by simp, ?_, ?_⟩
          · intro j q' hj
            cases j with
            | zero =>
              have hq' : q0 = q' := by simpa using hj
              exact le_of_eq hq'.symm
            | succ j' => exact le_trans (s2 j' q' (by simpa using hj)) hm
          · intro j hji _ _
            exact absurd hji (Nat.not_lt_zero j)

theorem argminQ_spec :
    ∀ (l : List (Option ℚ)) (i : Nat) (q : ℚ), argminQ l = some (i, q) →
      l.get? i = some (some q) ∧
        (∀ j q', l.get? j = some (some q') → q ≤ q') ∧
        (∀ j, j < i → ∀ q', l.get? j = some (some q') → q < q') := by
  intro l
  induction l with
  | nil => intro i q h; simp [argminQ] at h
  | cons x rest ih =>
    intro i q h
    cases x with
    | none =>
      rw [argminQ] at h
      cases hrest : argminQ rest with
      | none => rw [hrest] at h; simp at h
      | some p =>
        obtain ⟨i', m⟩ := p
        rw [hrest] at h
        simp only [Option.map_some', Option.some.injEq, Prod.mk.injEq] at h
        obtain ⟨hi, hq⟩ := h
        subst hi; subst hq
        obtain ⟨s1, s2, s3⟩ := ih i' m hrest
        refine ⟨by simpa using s1, ?_, ?_⟩
        · intro j q' hj
          cases j with
          | zero => simp at hj
          | succ j' => exact s2 j' q' (by simpa using hj)
        · intro j hji q' hj
          cases j with
          | zero => simp at hj
          | succ j' => exact s3 j' (Nat.lt_of_succ_lt_succ hji) q' (by simpa using hj)
    | some q0 =>
      rw [argminQ] at h
      cases hrest : argminQ rest with
      | none =>
        rw [hrest] at h
        simp only [Option.some.injEq, Prod.mk.injEq] at h
        obtain ⟨hi, hq⟩ := h
        subst hi; subst hq
        refine ⟨by simp, ?_, ?_⟩
        · intro j q' hj
          cases j with
          | zero =>
            have hq' : q0 = q' := by simpa using hj
            exact le_of_eq hq'
          | succ j' => exact absurd (by simpa using hj) (argminQ_none rest hrest j' q')
        · intro j hji
          exact absurd hji (Nat.not_lt_zero j)
      | some p =>
        obtain ⟨i', m⟩ := p
        rw [hrest] at h
        dsimp only at h
        obtain ⟨s1, s2, s3⟩ := ih i' m hrest
        by_cases hlt : m < q0
        · rw [if_pos hlt] at h
          simp only [Option.some.injEq, Prod.mk.injEq] at h
          obtain ⟨hi, hq⟩ := h
          subst hi; subst hq
          refine ⟨by simpa using s1, ?_, ?_⟩
          · intro j q' hj
            cases j with
            | zero =>
              have hq' : q0 = q' := by simpa using hj
              exact hq' ▸ le_of_lt hlt
            | succ j' => exact s2 j' q' (by simpa using hj)
          · intro j hji q' hj
            cases j with
            | zero =>
              have hq' : q0 = q' := by simpa using hj
              exact hq' ▸ hlt
            | succ j' => exact s3 j' (Nat.lt_of_succ_lt_succ hji) q' (by simpa using hj)
        · rw [if_neg hlt] at h
          simp only [Option.some.injEq, Prod.mk.injEq] at h
          obtain ⟨hi, hq⟩ := h
          subst hi; subst hq
          have hm : q0 ≤ m := not_lt.mp hlt
          refine ⟨by simp, ?_, ?_⟩
          · intro j q' hj
            cases j with
            | zero =>
              have hq' : q0 = q' := by simpa using hj
              exact le_of_eq hq'
            | succ j' => exact le_trans hm (s2 j' q' (by simpa using hj))
          · intro j hji _ _
            exact absurd hji (Nat.not_lt_zero j)

/-! ### The claims -/

/-- C1: evaluation of the code at the failing inputs.  Contrary to the
claim, `load_df` does not return a Table for every input: a row whose
non-empty period cell fails `%Y-%m` (here `2024-13`) makes
`pd.to_datetime` — whose `errors` parameter is left at its default
`"raise"` — raise `ValueError` instead of dropping the row, and a missing
required column raises `KeyError` inside `load_df` instead of yielding an
invalid Table for the caller's validity check. -/
theorem loadDf_raises_instead_of_dropping :
    loadDf (some badPeriodCsv) false = .error .periodParse ∧
      loadDf (some badColumnsCsv) false = .error .missingColumn := by
  constructor <;> with_unfolding_all rfl

/-- C2: `augment(table, window)` sets the moving average at row `i` to
the spec's value — the mean of revenue over rows `[i-window+1, i]` when
all `window` rows exist (and their revenues are present, missingness
propagating into the mean), and a missing value otherwise — and in
particular the first `window - 1` rows carry a missing moving average,
for every window in [2, 12]. -/
theorem augment_moving_average_spec (t : List Row) (w i : Nat)
    (h2 : 2 ≤ w) (h12 : w ≤ 12) (hi : i < t.length) :
    ((augment t w).get? i).map DRow.movingAverage = some (specMovingAverage t w i) ∧
      (i < w - 1 → ((augment t w).get? i).map DRow.movingAverage = some none) := by
  have hmap : (augment t w).map DRow.movingAverage = movingAvg w (t.map Row.revenue) := by
    rw [augment]
    exact zipWith_mkDRow_ma t _ (by simp [movingAvg_length])
  have hget : ((augment t w).get? i).map DRow.movingAverage =
      some (rollAt w (t.map Row.revenue) i) := by
    rw [← List.get?_map, hmap, movingAvg, List.get?_map,
      List.get?_range (by simpa using hi)]
    rfl
  have hspec : rollAt w (t.map Row.revenue) i = specMovingAverage t w i := by
    rw [rollAt_eq_spec _ _ _ (by simpa using hi)]
    rfl
  refine ⟨by rw [hget, hspec], ?_⟩
  intro hiw
  rw [hget, hspec, specMovingAverage, if_neg]
  intro hc
  have := hc.1
  omega

/-- Witness for C2 at the concrete table `wTable`, `window = 3`,
row `i = 2`. -/
theorem augment_moving_average_spec_witness :
    ((augment wTable 3).get? 2).map DRow.movingAverage = some (specMovingAverage wTable 3 2) ∧
      (2 < 3 - 1 → ((augment wTable 3).get? 2).map DRow.movingAverage = some none) :=
  augment_moving_average_spec wTable 3 2 (by decide) (by decide) (by decide)

/-- C3: `summarize`'s `cumulative_yoy_pct` is missing exactly when the
(skipna) sum of `prior_year_revenue` is zero, and otherwise equals
`(sum(revenue) - sum(prior_year_revenue)) / sum(prior_year_revenue) *
100`; the zero-denominator case takes the `np.nan` branch of the
conditional expression and never raises. -/
theorem summarize_cumulative_yoy (t : List Row) :
    ((summarize t).cumulative_yoy = none ↔ (t.filterMap Row.prior).sum = 0) ∧
      ((t.filterMap Row.prior).sum ≠ 0 →
        (summarize t).cumulative_yoy =
          some (((t.filterMap Row.revenue).sum - (t.filterMap Row.prior).sum) /
            (t.filterMap Row.prior).sum * 100)) := by
  have e1 : nanSum (t.map Row.revenue) = (t.filterMap Row.revenue).sum := by
    rw [nanSum, map_filterMap_id]
  have e2 : nanSum (t.map Row.prior) = (t.filterMap Row.prior).sum := by
    rw [nanSum, map_filterMap_id]
  constructor
  · constructor
    · intro h
      by_contra hne
      simp only [summarize] at h
      rw [e2, if_neg hne] at h
      exact Option.noConfusion h
    · intro h
      simp only [summarize]
      rw [e2, if_pos h]
  · intro h
    simp only [summarize]
    rw [e1, e2, if_neg h]

/-- Witness for C3 at the concrete table `wTable` (prior-year sum 10). -/
theorem summarize_cumulative_yoy_witness :
    (summarize wTable).cumulative_yoy =
      some (((wTable.filterMap Row.revenue).sum - (wTable.filterMap Row.prior).sum) /
        (wTable.filterMap Row.prior).sum * 100) :=
  (summarize_cumulative_yoy wTable).2 (by with_unfolding_all decide)

/-- C4 counterexample: on the embedded 12-row sample, `mean_growth_pct`
is exactly 607/60 = 10.116…, not approximately 9.7 — it exceeds 9.7 by
more than 0.4, so no display rounding reads it as 9.7 (the sum of the
twelve growth values is 121.4, and 121.4 / 12 = 607/60). -/
theorem sample_mean_growth_pct_not_approx_9_7 :
    (summarize sampleTable).mean_growth = some (607 / 60) ∧
      (97 / 10 + 2 / 5 : ℚ) < 607 / 60 := by
  constructor
  · rw [sampleTable_eq]
    with_unfolding_all rfl
  · norm_num

/-- C4 as amended: the end-to-end sample scenario with the corrected mean
growth.  On the table loaded from the embedded sample with `window = 3`:
`total_revenue` = 213,000,000; `mean_growth_pct` = 607/60 ≈ 10.1 (not
9.7); the rows for 2024-01 and 2024-02 carry a missing moving average
and 2024-03's moving average is 36,500,000/3 = 12,166,666.67;
`max_revenue_period` = 2024-12 and `min_revenue_period` = 2024-03. -/
theorem sample_end_to_end_summary :
    (summarize sampleTable).total_revenue = 213000000 ∧
      (summarize sampleTable).mean_growth = some (607 / 60) ∧
      ((augment sampleTable 3).map DRow.movingAverage).take 3 =
        [none, none, some (36500000 / 3)] ∧
      (summarize sampleTable).max_revenue_period = some ⟨2024, 12⟩ ∧
      (summarize sampleTable).min_revenue_period = some ⟨2024, 3⟩ := by
  rw [sampleTable_eq]
  refine ⟨?_, ?_, ?_, ?_, ?_⟩ <;> with_unfolding_all rfl

/-- C5 counterexample: on a table whose second row has missing revenue
and growth, the summary statistics are numbers computed from the
remaining rows — `total_revenue` 10, `mean_growth` 1, `cumulative_yoy` 0
— not missing/NaN values: pandas' default `skipna=True` drops the
missing entries from every reduction instead of propagating them. -/
theorem summarize_computes_from_remaining_rows :
    (missTable.map (fun r => r.revenue.isNone || r.growth.isNone)).contains true = true ∧
      (summarize missTable).total_revenue = 10 ∧
      (summarize missTable).mean_growth = some 1 ∧
      (summarize missTable).cumulative_yoy = some 0 := by
  refine ⟨?_, ?_, ?_, ?_⟩ <;> with_unfolding_all rfl

/-- C5 as amended: on a table with a missing numeric field the summary
statistics skip the missing entries (pandas `skipna=True`) rather than
propagate them: `total_revenue` is the truncated sum of the non-missing
revenues, `mean_growth` the mean of the non-missing growth values
(missing only when all of them are), and `cumulative_yoy` is computed
from the sums of the non-missing values (missing exactly when the
prior-year sum is zero). -/
theorem summarize_skips_missing (t : List Row)
    (hmiss : t.any (fun r => r.revenue.isNone || r.prior.isNone || r.growth.isNone) = true) :
    (summarize t).total_revenue = intTrunc ((t.filterMap Row.revenue).sum) ∧
      (summarize t).mean_growth =
        (if (t.filterMap Row.growth) = [] then none
         else some ((t.filterMap Row.growth).sum / ((t.filterMap Row.growth).length : ℚ))) ∧
      (summarize t).cumulative_yoy =
        (if (t.filterMap Row.prior).sum = 0 then none
         else some (((t.filterMap Row.revenue).sum - (t.filterMap Row.prior).sum) /
            (t.filterMap Row.prior).sum * 100)) := by
  refine ⟨?_, ?_, ?_⟩ <;>
    simp only [summarize, nanSum, nanMean, map_filterMap_id]

/-- Witness for C5's amended claim at the concrete table `missTable`. -/
theorem summarize_skips_missing_witness :
    (summarize missTable).total_revenue = intTrunc ((missTable.filterMap Row.revenue).sum) ∧
      (summarize missTable).mean_growth =
        (if (missTable.filterMap Row.growth) = [] then none
         else some ((missTable.filterMap Row.growth).sum /
            ((missTable.filterMap Row.growth).length : ℚ))) ∧
      (summarize missTable).cumulative_yoy =
        (if (missTable.filterMap Row.prior).sum = 0 then none
         else some (((missTable.filterMap Row.revenue).sum -
            (missTable.filterMap Row.prior).sum) /
            (missTable.filterMap Row.prior).sum * 100)) :=
  summarize_skips_missing missTable (by rfl)

/-- C7: evaluation of the code at the failing input.  The numeric half of
the claim holds — the row with the unparseable revenue cell `xx` is kept
with that field missing — but a row with an unparseable non-empty period
cell is not merely absent from the loaded Table: the whole load raises
(`pd.to_datetime` with its default `errors="raise"`), taking the
well-formed `2024-02` row down with it. -/
theorem loadDf_period_error_vs_numeric_coerce :
    loadDf (some badPeriodCsv2) false = .error .periodParse ∧
      loadDf (some badNumericCsv) false =
        .ok [{ period := ⟨2024, 1⟩, revenue := none, prior := some 2, growth := some 3 }] := by
  constructor <;> with_unfolding_all rfl

/-- C9 counterexample: re-loading the exported sample DerivedTable does
not reproduce the Table — the load does not even return one. -/
theorem roundtrip_reload_differs :
    loadDf (some (exportCsv (augment sampleTable 3))) false ≠ .ok sampleTable := by
  rw [sampleTable_eq, reload_export_sample]
  intro h
  exact Except.noConfusion h

/-- C9 as amended: the round trip fails with a period parse error.
`df.to_csv` renders the datetime64 `월` column as full `YYYY-MM-DD`
dates, which the loader's strict `%Y-%m` parse (default `errors="raise"`)
rejects, so re-loading the exported bytes raises instead of reproducing
the Table (shown on the sample DerivedTable; the failure is independent
of the moving-average column, which the claim already sets aside). -/
theorem roundtrip_reload_period_error :
    loadDf (some (exportCsv (augment sampleTable 3))) false = .error .periodParse := by
  rw [sampleTable_eq]
  exact reload_export_sample

/-- C10: deriving the label and moving-average columns changes nothing
else — the `DerivedTable` has the same number of rows as the input Table
and the same `period`, `revenue`, `prior_year_revenue` and `growth_pct`
values row by row; augmentation only adds columns. -/
theorem augment_preserves_existing_columns (t : List Row) (w : Nat) :
    (augment t w).map (fun d => (d.period, d.revenue, d.prior, d.growth)) =
        t.map (fun r => (r.period, r.revenue, r.prior, r.growth)) ∧
      (augment t w).length = t.length := by
  constructor
  · rw [augment]
    exact zipWith_mkDRow_proj t _ (by simp [movingAvg_length])
  · rw [augment, List.length_zipWith, movingAvg_length, List.length_map, Nat.min_self]

/-- C8: on a table sorted ascending by period, when the maximum
(respectively minimum) revenue is achieved by more than one row,
`summarize`'s `max_revenue_period` (respectively `min_revenue_period`) is
the period of the first such row — first in table order (`idxmax` /
`idxmin` return the first occurrence) and hence, by sortedness, earliest
in ascending-period order among all achieving rows.  The two halves are
independent implications, so a table where only one extremum is tied is
covered by the corresponding half. -/
theorem summarize_extrema_first (t : List Row)
    (hsorted : List.Pairwise (fun a b => Period.le a.period b.period) t) :
    ((argmaxQ (t.map Row.revenue)).isSome = true →
      2 ≤ t.countP (fun r => decide (r.revenue = (argmaxQ (t.map Row.revenue)).map Prod.snd)) →
      (∃ i r, t.get? i = some r ∧
        (summarize t).max_revenue_period = some r.period ∧ achievesMax t r ∧
        (∀ j r', j < i → t.get? j = some r' → ¬ achievesMax t r') ∧
        (∀ r' ∈ t, achievesMax t r' → Period.le r.period r'.period))) ∧
      ((argminQ (t.map Row.revenue)).isSome = true →
        2 ≤ t.countP (fun r => decide (r.revenue = (argminQ (t.map Row.revenue)).map Prod.snd)) →
        (∃ i r, t.get? i = some r ∧
          (summarize t).min_revenue_period = some r.period ∧ achievesMin t r ∧
          (∀ j r', j < i → t.get? j = some r' → ¬ achievesMin t r') ∧
          (∀ r' ∈ t, achievesMin t r' → Period.le r.period r'.period))) := by
  constructor
  · intro hmaxE hmaxTie
    obtain ⟨⟨i, q⟩, hmax⟩ := Option.isSome_iff_exists.mp hmaxE
    obtain ⟨hg, hub, hstrict⟩ := argmaxQ_spec _ i q hmax
    rw [List.get?_map] at hg
    obtain ⟨r, hr, hrrev⟩ := Option.map_eq_some'.mp hg
    have hrmem : r ∈ t := List.get?_mem hr
    have hach : achievesMax t r := by
      refine ⟨q, hrrev, ?_⟩
      intro r' hr' q' hq'
      obtain ⟨j, hj⟩ := List.mem_iff_get?.mp hr'
      refine hub j q' ?_
      rw [List.get?_map, hj]
      simp [hq']
    refine ⟨i, r, hr, ?_, hach, ?_, ?_⟩
    · simp only [summarize]
      rw [hmax, Option.some_bind, hr, Option.map_some']
    · intro j r' hji hj hach'
      obtain ⟨q'', hq'', hub''⟩ := hach'
      have h1 : q'' < q := by
        refine hstrict j hji q'' ?_
        rw [List.get?_map, hj]
        simp [hq'']
      exact absurd h1 (not_lt.mpr (hub'' r hrmem q hrrev))
    · intro r' hr' hach'
      obtain ⟨q'', hq'', hub''⟩ := hach'
      obtain ⟨j, hj⟩ := List.mem_iff_get?.mp hr'
      have hval : (t.map Row.revenue).get? j = some (some q'') := by
        rw [List.get?_map, hj]
        simp [hq'']
      have hq''q : q'' = q := le_antisymm (hub j q'' hval) (hub'' r hrmem q hrrev)
      rcases Nat.lt_trichotomy j i with hlt | heq | hgt
      · exfalso
        have := hstrict j hlt q'' hval
        rw [hq''q] at this
        exact lt_irrefl q this
      · rw [heq] at hj
        have hrr : r = r' := by
          rw [hr] at hj
          exact Option.some.inj hj
        rw [← hrr]
        exact Period.le_refl _
      · obtain ⟨hil, hgi⟩ := List.get?_eq_some.mp hr
        obtain ⟨hjl, hgj⟩ := List.get?_eq_some.mp hj
        have hp := List.pairwise_iff_get.mp hsorted ⟨i, hil⟩ ⟨j, hjl⟩ hgt
        rw [hgi, hgj] at hp
        exact hp
  · intro hminE hminTie
    obtain ⟨⟨i, q⟩, hmin⟩ := Option.isSome_iff_exists.mp hminE
    obtain ⟨hg, hlb, hstrict⟩ := argminQ_spec _ i q hmin
    rw [List.get?_map] at hg
    obtain ⟨r, hr, hrrev⟩ := Option.map_eq_some'.mp hg
    have hrmem : r ∈ t := List.get?_mem hr
    have hach : achievesMin t r := by
      refine ⟨q, hrrev, ?_⟩
      intro r' hr' q' hq'
      obtain ⟨j, hj⟩ := List.mem_iff_get?.mp hr'
      refine hlb j q' ?_
      rw [List.get?_map, hj]
      simp [hq']
    refine ⟨i, r, hr, ?_, hach, ?_, ?_⟩
    · simp only [summarize]
      rw [hmin, Option.some_bind, hr, Option.map_some']
    · intro j r' hji hj hach'
      obtain ⟨q'', hq'', hlb''⟩ := hach'
      have h1 : q < q'' := by
        refine hstrict j hji q'' ?_
        rw [List.get?_map, hj]
        simp [hq'']
      exact absurd h1 (not_lt.mpr (hlb'' r hrmem q hrrev))
    · intro r' hr' hach'
      obtain ⟨q'', hq'', hlb''⟩ := hach'
      obtain ⟨j, hj⟩ := List.mem_iff_get?.mp hr'
      have hval : (t.map Row.revenue).get? j = some (some q'') := by
        rw [List.get?_map, hj]
        simp [hq'']
      have hq''q : q'' = q := le_antisymm (hlb'' r hrmem q hrrev) (hlb j q'' hval)
      rcases Nat.lt_trichotomy j i with hlt | heq | hgt
      · exfalso
        have := hstrict j hlt q'' hval
        rw [hq''q] at this
        exact lt_irrefl q this
      · rw [heq] at hj
        have hrr : r = r' := by
          rw [hr] at hj
          exact Option.some.inj hj
        rw [← hrr]
        exact Period.le_refl _
      · obtain ⟨hil, hgi⟩ := List.get?_eq_some.mp hr
        obtain ⟨hjl, hgj⟩ := List.get?_eq_some.mp hj
        have hp := List.pairwise_iff_get.mp hsorted ⟨i, hil⟩ ⟨j, hjl⟩ hgt
        rw [hgi, hgj] at hp
        exact hp

/-- Witness for C8 at the concrete table `wTable` (revenue maximum 5 in
rows 0 and 1, minimum 1 in rows 2 and 3), applying each half of the
theorem with its own tie hypothesis discharged. -/
theorem summarize_extrema_first_witness :
    (∃ i r, wTable.get? i = some r ∧
        (summarize wTable).max_revenue_period = some r.period ∧ achievesMax wTable r ∧
        (∀ j r', j < i → wTable.get? j = some r' → ¬ achievesMax wTable r') ∧
        (∀ r' ∈ wTable, achievesMax wTable r' → Period.le r.period r'.period)) ∧
      (∃ i r, wTable.get? i = some r ∧
        (summarize wTable).min_revenue_period = some r.period ∧ achievesMin wTable r ∧
        (∀ j r', j < i → wTable.get? j = some r' → ¬ achievesMin wTable r') ∧
        (∀ r' ∈ wTable, achievesMin wTable r' → Period.le r.period r'.period)) :=
  ⟨(summarize_extrema_first wTable (by decide)).1
      (by with_unfolding_all rfl) (by with_unfolding_all decide),
    (summarize_extrema_first wTable (by decide)).2
      (by with_unfolding_all rfl) (by with_unfolding_all decide)⟩
